import Mathlib

/-!
Shallow embedding of the FreeCAD WalkView navigation macro
(src/FreeCAD_NavTest.py).  Python floats are modelled as real numbers,
Python's `%` on reals as `pymod` (Python semantics for a positive
divisor), and host-side calls (Qt widgets, the Coin3D camera node) as an
explicit fault oracle: each external call either succeeds or raises, and
a raise aborts the rest of the handler body, after which the handler's
try/except swallows the exception.
-/

namespace WalkView

/-- The constant DEG2RAD from the source: pi / 180.0. -/
noncomputable def DEG2RAD : ℝ := Real.pi / 180

/-- The constant RAD2DEG from the source: 180.0 / pi. -/
noncomputable def RAD2DEG : ℝ := 180 / Real.pi

/-- The constant MOUSE_SPEED_DIVIDER from the source. -/
def MOUSE_SPEED_DIVIDER : ℝ := 10000

/-- Python's float modulo `x % y` (for positive `y`): `x - y * ⌊x / y⌋`. -/
noncomputable def pymod (x y : ℝ) : ℝ := x - y * ⌊x / y⌋

/-- The method updateAz of walkTroughView: convert to degrees, reduce
modulo 360, add or subtract the increment, convert back to radians. -/
noncomputable def updateAz (value increment : ℝ) (positive_incr : Bool) : ℝ :=
  let value_deg := value * RAD2DEG
  let value_deg2 := pymod value_deg 360
  let new_value := if positive_incr then value_deg2 + increment else value_deg2 - increment
  new_value * DEG2RAD

/-- The method updateEl of walkTroughView: convert to degrees, remember
the modulo-360 reduction, add or subtract the increment to the
unreduced degree value, and fall back to the reduction when the
incremented value is below 90 or above 270. -/
noncomputable def updateEl (value increment : ℝ) (positive_incr : Bool) : ℝ :=
  let value_deg := value * RAD2DEG
  let value_mod := pymod value_deg 360
  let new_value := if positive_incr then value_deg + increment else value_deg - increment
  let new_value2 := if new_value < 90 ∨ new_value > 270 then value_mod else new_value
  new_value2 * DEG2RAD

/-- The azimuth initialization in walkTroughView.__init__: 0 unless the
first component of the view direction is nonzero, in which case
atan(dy/dx). -/
noncomputable def initAzimuth (v : ℝ × ℝ × ℝ) : ℝ :=
  if v.1 ≠ 0 then Real.arctan (v.2.1 / v.1) else 0

/-- The elevation initialization in walkTroughView.__init__: 0 unless the
second component of the view direction is nonzero, in which case
atan(dz/dy). -/
noncomputable def initElevation (v : ℝ × ℝ × ℝ) : ℝ :=
  if v.2.1 ≠ 0 then Real.arctan (v.2.2 / v.2.1) else 0

/-- The mutable fields of a walkTroughView instance, together with the
host camera state it manipulates (camPos is the live camera position,
camTarget the last point the camera was told to look at). -/
structure NavState where
  x : ℝ
  y : ℝ
  z : ℝ
  azimuth : ℝ
  elevation : ℝ
  walktrough_speed_mm : ℝ
  speed_increment : ℝ
  mouse_speed : ℝ
  mouse_speed_increment : ℝ
  azimuth_increment : ℝ
  elevation_increment : ℝ
  viewAroundState : Bool
  elevationFrozen : Bool
  d_az_init : ℤ
  d_el_init : ℤ
  d_az : ℤ
  d_el : ℤ
  shut_down_flag : Bool
  camPos : ℝ × ℝ × ℝ
  camTarget : ℝ × ℝ × ℝ
  cam_pos : ℝ × ℝ × ℝ
  vector_view : ℝ × ℝ × ℝ

/-- The fault oracle: one flag per external call a handler makes, true
when the call succeeds and false when it raises an exception. -/
structure Faults where
  numericInputOk : Bool
  numericInput3Ok : Bool
  labelMouseOk : Bool
  labelElevOk : Bool
  camGetOk : Bool
  camSetOk : Bool
  camPointOk : Bool
  statusOk : Bool

/-- The keys handled by updateKeyPressMotion. -/
inductive Key where
  | ESCAPE | W | S | A | D | Q | E | R | F | T | G | X | C | V | OTHER
deriving DecidableEq

/-- The method updateViewVector: read the camera position, compute the
look target from azimuth and elevation, point the camera at it and
refresh the status bar.  Returns the state reached and whether one of
the host calls raised. -/
noncomputable def updateViewVector (f : Faults) (s : NavState) : NavState × Bool :=
  if f.camGetOk then
    let cp := s.camPos
    let vv : ℝ × ℝ × ℝ :=
      (cp.1 + Real.cos s.azimuth, cp.2.1 + Real.sin s.azimuth, cp.2.2 + Real.sin s.elevation)
    let s1 := { s with cam_pos := cp, vector_view := vv }
    if f.camPointOk then
      let s2 := { s1 with camTarget := vv }
      if f.statusOk then (s2, false) else (s2, true)
    else (s1, true)
  else (s, true)

/-- The body of updateMouseMotion inside its try.  In active mode the
pointer deltas (previous minus current, truncated to integers by the
caller) rotate azimuth and elevation and the view vector is refreshed;
in frozen mode the camera's live position is re-read into x, y, z.
Returns the state reached and whether an exception was raised. -/
noncomputable def mouseBody (f : Faults) (s : NavState) (px py : ℤ) : NavState × Bool :=
  if s.viewAroundState then
    let s1 := { s with d_az := px, d_el := py }
    let s2 := { s1 with
      azimuth := s1.azimuth +
        ((s1.d_az_init : ℝ) - (px : ℝ)) * (s1.mouse_speed / MOUSE_SPEED_DIVIDER),
      elevation := s1.elevation +
        ((s1.d_el_init : ℝ) - (py : ℝ)) * (s1.mouse_speed / MOUSE_SPEED_DIVIDER) }
    let s3 := { s2 with d_az_init := px, d_el_init := py }
    updateViewVector f s3
  else
    if f.camGetOk then
      ({ s with cam_pos := s.camPos, x := s.camPos.1, y := s.camPos.2.1, z := s.camPos.2.2 },
       false)
    else (s, true)

/-- The method updateMouseMotion: its try/except catches every raise
and only prints, so the handler always returns the (possibly partially
updated) state of the body. -/
noncomputable def updateMouseMotion (f : Faults) (s : NavState) (px py : ℤ) : NavState :=
  (mouseBody f s px py).1

/-- The per-key branch of updateKeyPressMotion (the if/elif chain on the
pressed key).  Returns the state reached and whether one of the host
calls in the branch raised. -/
noncomputable def keyStep (f : Faults) (s : NavState) (k : Key) : NavState × Bool :=
  match k with
  | Key.ESCAPE =>
      ({ s with shut_down_flag := true }, false)
  | Key.W =>
      let s1 := { s with
        x := s.x + s.walktrough_speed_mm * Real.cos s.azimuth,
        y := s.y + s.walktrough_speed_mm * Real.sin s.azimuth }
      (if s.elevationFrozen then s1
       else { s1 with z := s1.z + s1.walktrough_speed_mm * Real.sin s1.elevation }, false)
  | Key.S =>
      let s1 := { s with
        y := s.y - s.walktrough_speed_mm * Real.sin s.azimuth,
        x := s.x - s.walktrough_speed_mm * Real.cos s.azimuth }
      (if s.elevationFrozen then s1
       else { s1 with z := s1.z - s1.walktrough_speed_mm * Real.sin s1.elevation }, false)
  | Key.A =>
      ({ s with
        x := s.x + s.walktrough_speed_mm * Real.cos (s.azimuth + Real.pi / 2),
        y := s.y + s.walktrough_speed_mm * Real.sin (s.azimuth + Real.pi / 2) }, false)
  | Key.D =>
      ({ s with
        x := s.x - s.walktrough_speed_mm * Real.cos (s.azimuth + Real.pi / 2),
        y := s.y - s.walktrough_speed_mm * Real.sin (s.azimuth + Real.pi / 2) }, false)
  | Key.Q =>
      ({ s with z := s.z - s.walktrough_speed_mm * Real.sin s.elevation }, false)
  | Key.E =>
      ({ s with z := s.z + s.walktrough_speed_mm * Real.sin s.elevation }, false)
  | Key.R =>
      ({ s with walktrough_speed_mm := s.walktrough_speed_mm + s.speed_increment },
       !f.numericInputOk)
  | Key.F =>
      ({ s with walktrough_speed_mm := s.walktrough_speed_mm - s.speed_increment },
       !f.numericInputOk)
  | Key.T =>
      ({ s with mouse_speed := s.mouse_speed + s.mouse_speed_increment },
       !f.numericInput3Ok)
  | Key.G =>
      ({ s with mouse_speed := s.mouse_speed - s.mouse_speed_increment },
       !f.numericInput3Ok)
  | Key.X =>
      ({ s with viewAroundState := !s.viewAroundState }, !f.labelMouseOk)
  | Key.C =>
      ({ s with elevationFrozen := !s.elevationFrozen }, !f.labelElevOk)
  | Key.V =>
      (s, false)
  | Key.OTHER =>
      (s, false)

/-- The body of updateKeyPressMotion inside its try: the key branch,
then (when nothing raised) the unconditional last-pointer reset from the
event position and, for every key other than X, the camera-position
push.  Returns the state reached and whether an exception was raised. -/
noncomputable def keyBody (f : Faults) (s : NavState) (k : Key) (px py : ℤ) :
    NavState × Bool :=
  let r := keyStep f s k
  if r.2 then r
  else
    let s1 := { r.1 with d_az := px, d_el := py, d_az_init := px, d_el_init := py }
    if k = Key.X then (s1, false)
    else if f.camSetOk then ({ s1 with camPos := (s1.x, s1.y, s1.z) }, false)
    else (s1, true)

/-- The method updateKeyPressMotion: its try/except catches every raise
and only prints, so the handler always returns the (possibly partially
updated) state of the body. -/
noncomputable def updateKeyPressMotion (f : Faults) (s : NavState) (k : Key) (px py : ℤ) :
    NavState :=
  (keyBody f s k px py).1

/-- The fault oracle in which every external call succeeds. -/
def noFaults : Faults :=
  { numericInputOk := true, numericInput3Ok := true, labelMouseOk := true,
    labelElevOk := true, camGetOk := true, camSetOk := true,
    camPointOk := true, statusOk := true }

/-- The fault oracle in which the numeric-input widget update raises and
every other call succeeds. -/
def uiFault : Faults :=
  { numericInputOk := false, numericInput3Ok := true, labelMouseOk := true,
    labelElevOk := true, camGetOk := true, camSetOk := true,
    camPointOk := true, statusOk := true }

/-- The fault oracle in which the host camera-position read raises and
every other call succeeds. -/
def camFault : Faults :=
  { numericInputOk := true, numericInput3Ok := true, labelMouseOk := true,
    labelElevOk := true, camGetOk := false, camSetOk := true,
    camPointOk := true, statusOk := true }

/-- A session state holding the source's default parameter values, at
position (0, 0, 0) with level look direction. -/
noncomputable def s0 : NavState :=
  { x := 0, y := 0, z := 0, azimuth := 0, elevation := 0,
    walktrough_speed_mm := 100, speed_increment := 10,
    mouse_speed := 50, mouse_speed_increment := 5,
    azimuth_increment := 1, elevation_increment := 1,
    viewAroundState := true, elevationFrozen := false,
    d_az_init := 0, d_el_init := 0, d_az := 0, d_el := 0,
    shut_down_flag := false,
    camPos := (0, 0, 0), camTarget := (0, 0, 0),
    cam_pos := (0, 0, 0), vector_view := (0, 0, 0) }

/-- The default state with mouse mode frozen. -/
noncomputable def s0frozen : NavState := { s0 with viewAroundState := false }

/- Basic facts about pymod and the conversion constants. -/

theorem DEG2RAD_mul_RAD2DEG : DEG2RAD * RAD2DEG = 1 := by
  unfold DEG2RAD RAD2DEG
  field_simp

theorem pymod_eq_fract (x y : ℝ) (hy : y ≠ 0) :
    pymod x y = y * Int.fract (x / y) := by
  unfold pymod Int.fract
  field_simp

theorem pymod_nonneg (x y : ℝ) (hy : 0 < y) : 0 ≤ pymod x y := by
  rw [pymod_eq_fract x y hy.ne.symm]
  exact mul_nonneg hy.le (Int.fract_nonneg _)

theorem pymod_lt (x y : ℝ) (hy : 0 < y) : pymod x y < y := by
  rw [pymod_eq_fract x y hy.ne.symm]
  calc y * Int.fract (x / y) < y * 1 :=
        (mul_lt_mul_left hy).mpr (Int.fract_lt_one _)
    _ = y := mul_one y

theorem pymod_eq_self (x y : ℝ) (h0 : 0 ≤ x) (h1 : x < y) : pymod x y = x := by
  have hy : 0 < y := lt_of_le_of_lt h0 h1
  have hfloor : ⌊x / y⌋ = 0 := by
    rw [Int.floor_eq_zero_iff]
    constructor
    · exact div_nonneg h0 hy.le
    · rw [div_lt_one hy]
      exact h1
  unfold pymod
  rw [hfloor]
  push_cast
  ring

theorem pymod_sub_int_mul (x y : ℝ) (hy : y ≠ 0) (m : ℤ) :
    pymod (x - y * m) y = pymod x y := by
  have hdiv : (x - y * m) / y = x / y - m := by
    rw [sub_div, mul_comm, mul_div_assoc, div_self hy, mul_one]
  unfold pymod
  rw [hdiv, Int.floor_sub_int]
  push_cast
  ring

theorem pymod_pymod (x y : ℝ) (hy : 0 < y) : pymod (pymod x y) y = pymod x y :=
  pymod_eq_self _ _ (pymod_nonneg x y hy) (pymod_lt x y hy)

theorem mul_DEG2RAD_mul_RAD2DEG (a : ℝ) : a * DEG2RAD * RAD2DEG = a := by
  rw [mul_assoc, DEG2RAD_mul_RAD2DEG, mul_one]

theorem pi_mul_RAD2DEG : Real.pi * RAD2DEG = 180 := by
  have h : Real.pi ≠ 0 := Real.pi_ne_zero
  unfold RAD2DEG
  field_simp

theorem DEG2RAD_pos : 0 < DEG2RAD := by
  unfold DEG2RAD
  positivity

theorem updateAz_eq (v k : ℝ) (p : Bool) :
    updateAz v k p =
      (if p then pymod (v * RAD2DEG) 360 + k else pymod (v * RAD2DEG) 360 - k) * DEG2RAD := rfl

theorem updateEl_eq (v k : ℝ) (p : Bool) :
    updateEl v k p =
      (if (if p then v * RAD2DEG + k else v * RAD2DEG - k) < 90 ∨
          (if p then v * RAD2DEG + k else v * RAD2DEG - k) > 270
        then pymod (v * RAD2DEG) 360
        else if p then v * RAD2DEG + k else v * RAD2DEG - k) * DEG2RAD := rfl

theorem updateEl_pi_one : updateEl Real.pi 1 true = 181 * DEG2RAD := by
  rw [updateEl_eq, pi_mul_RAD2DEG]
  norm_num

/-- Claim C1 counterexample: at elevation 180 degrees (pi radians) with
increment 1 degree, updateEl accepts the change and returns 181 degrees,
whose degree-equivalent lies strictly between 90 and 270. -/
theorem c1_cex :
    90 < updateEl Real.pi 1 true * RAD2DEG ∧ updateEl Real.pi 1 true * RAD2DEG < 270 := by
  rw [updateEl_pi_one, mul_DEG2RAD_mul_RAD2DEG]
  norm_num

/-- Claim C1 (amended): updateEl returns either an angle whose
degree-equivalent equals the modulo-360-reduced current degree value
(the rejected case, which the guard takes exactly when the incremented
degree value is below 90 or above 270), or an angle whose
degree-equivalent lies in the closed band from 90 to 270 (the accepted
case) — so returned angles can lie strictly between 90 and 270. -/
theorem c1_updateEl_band (v k : ℝ) (p : Bool) :
    updateEl v k p * RAD2DEG = pymod (v * RAD2DEG) 360 ∨
      (90 ≤ updateEl v k p * RAD2DEG ∧ updateEl v k p * RAD2DEG ≤ 270) := by
  rw [updateEl_eq]
  by_cases h : (if p then v * RAD2DEG + k else v * RAD2DEG - k) < 90 ∨
      (if p then v * RAD2DEG + k else v * RAD2DEG - k) > 270
  · left
    rw [if_pos h, mul_DEG2RAD_mul_RAD2DEG]
  · right
    rw [if_neg h, mul_DEG2RAD_mul_RAD2DEG]
    push_neg at h
    exact ⟨h.1, h.2⟩

theorem pymod_370 : pymod (370 : ℝ) 360 = 10 := by
  have h1 : (370 : ℝ) = 10 - 360 * ((-1 : ℤ) : ℝ) := by push_cast; ring
  rw [h1, pymod_sub_int_mul _ _ (by norm_num) (-1),
    pymod_eq_self _ _ (by norm_num) (by norm_num)]

/-- Claim C3 counterexample: from azimuth 350 degrees with increment 20
degrees, the increment wraps to 370 degrees, and the decrement then
reduces first (370 mod 360 = 10) and subtracts to -10 degrees — not the
350 degrees the claim promises (they differ by a full turn, far beyond
floating tolerance). -/
theorem c3_cex :
    updateAz (updateAz (350 * DEG2RAD) 20 true) 20 false ≠
      pymod (350 * DEG2RAD * RAD2DEG) 360 * DEG2RAD := by
  have h350 : pymod ((350 : ℝ)) 360 = 350 :=
    pymod_eq_self _ _ (by norm_num) (by norm_num)
  have hInner : updateAz (350 * DEG2RAD) 20 true = 370 * DEG2RAD := by
    rw [updateAz_eq, mul_DEG2RAD_mul_RAD2DEG, h350]
    norm_num
  have hL : updateAz (updateAz (350 * DEG2RAD) 20 true) 20 false = -10 * DEG2RAD := by
    rw [hInner, updateAz_eq, mul_DEG2RAD_mul_RAD2DEG, pymod_370]
    norm_num
  rw [hL, mul_DEG2RAD_mul_RAD2DEG, h350]
  intro h
  have := mul_right_cancel₀ (ne_of_gt DEG2RAD_pos) h
  norm_num at this

/-- Claim C3 (amended): incrementing and then decrementing the azimuth
by the same amount returns an angle congruent to the original modulo a
full turn: the degree-equivalents of the round trip and of the original
value have equal modulo-360 reductions (they are equal outright only
when the increment does not wrap past 360). -/
theorem c3_az_inverse_mod (v k : ℝ) :
    pymod (updateAz (updateAz v k true) k false * RAD2DEG) 360 =
      pymod (v * RAD2DEG) 360 := by
  set P := pymod (v * RAD2DEG) 360 with hP
  have h1 : updateAz v k true = (P + k) * DEG2RAD := by
    rw [updateAz_eq, ← hP]
    norm_num
  have h3 : updateAz ((P + k) * DEG2RAD) k false =
      (pymod (P + k) 360 - k) * DEG2RAD := by
    rw [updateAz_eq, mul_DEG2RAD_mul_RAD2DEG]
    norm_num
  rw [h1, h3, mul_DEG2RAD_mul_RAD2DEG]
  have h4 : pymod (P + k) 360 - k = P - 360 * ((⌊(P + k) / 360⌋ : ℤ) : ℝ) := by
    unfold pymod
    ring
  rw [h4, pymod_sub_int_mul _ _ (by norm_num) _, hP,
    pymod_pymod _ _ (by norm_num)]

/- Helper lemmas about the event handlers. -/

theorem updateMouseMotion_active (f : Faults) (s : NavState) (px py : ℤ)
    (h : s.viewAroundState = true) :
    (updateMouseMotion f s px py).azimuth =
        s.azimuth + ((s.d_az_init : ℝ) - (px : ℝ)) * (s.mouse_speed / MOUSE_SPEED_DIVIDER) ∧
      (updateMouseMotion f s px py).elevation =
        s.elevation + ((s.d_el_init : ℝ) - (py : ℝ)) * (s.mouse_speed / MOUSE_SPEED_DIVIDER) := by
  unfold updateMouseMotion mouseBody
  cases hg : f.camGetOk <;> cases hp : f.camPointOk <;> cases hs : f.statusOk <;>
    simp [updateViewVector, h, hg, hp, hs]

theorem keyR_speed (f : Faults) (s : NavState) (px py : ℤ) :
    (updateKeyPressMotion f s Key.R px py).walktrough_speed_mm =
        s.walktrough_speed_mm + s.speed_increment ∧
      (updateKeyPressMotion f s Key.R px py).speed_increment = s.speed_increment := by
  cases hn : f.numericInputOk <;> cases hc : f.camSetOk <;>
    simp [updateKeyPressMotion, keyBody, keyStep, hn, hc]

theorem keyF_speed (f : Faults) (s : NavState) (px py : ℤ) :
    (updateKeyPressMotion f s Key.F px py).walktrough_speed_mm =
        s.walktrough_speed_mm - s.speed_increment := by
  cases hn : f.numericInputOk <;> cases hc : f.camSetOk <;>
    simp [updateKeyPressMotion, keyBody, keyStep, hn, hc]

theorem keyQ_fields (f : Faults) (s : NavState) (px py : ℤ) :
    (updateKeyPressMotion f s Key.Q px py).z =
        s.z - s.walktrough_speed_mm * Real.sin s.elevation ∧
      (updateKeyPressMotion f s Key.Q px py).elevation = s.elevation ∧
      (updateKeyPressMotion f s Key.Q px py).walktrough_speed_mm =
        s.walktrough_speed_mm := by
  cases hc : f.camSetOk <;> simp [updateKeyPressMotion, keyBody, keyStep, hc]

theorem keyE_z (f : Faults) (s : NavState) (px py : ℤ) :
    (updateKeyPressMotion f s Key.E px py).z =
      s.z + s.walktrough_speed_mm * Real.sin s.elevation := by
  cases hc : f.camSetOk <;> simp [updateKeyPressMotion, keyBody, keyStep, hc]

/- The claims about the handlers. -/

/-- Claim C2 counterexample: an R key press under a failing
numeric-input widget raises inside the handler body, yet the handler
returns a state whose walk speed has already been incremented —
CameraState is not left unchanged by the faulting event. -/
theorem c2_cex :
    (keyBody uiFault s0 Key.R 0 0).2 = true ∧
      (updateKeyPressMotion uiFault s0 Key.R 0 0).walktrough_speed_mm ≠
        s0.walktrough_speed_mm := by
  constructor
  · simp [keyBody, keyStep, uiFault]
  · simp [updateKeyPressMotion, keyBody, keyStep, uiFault, s0]

theorem keyStep_camPos (f : Faults) (s : NavState) (k : Key) :
    (keyStep f s k).1.camPos = s.camPos := by
  cases k <;> cases hf : s.elevationFrozen <;> simp [keyStep, hf]

theorem keyBody_error_state (f : Faults) (s : NavState) (k : Key) (px py : ℤ)
    (h : (keyBody f s k px py).2 = true) :
    updateKeyPressMotion f s k px py = (keyStep f s k).1 ∨
      updateKeyPressMotion f s k px py =
        { (keyStep f s k).1 with d_az := px, d_el := py, d_az_init := px, d_el_init := py } := by
  unfold keyBody at h
  unfold updateKeyPressMotion keyBody
  by_cases hr : (keyStep f s k).2 = true
  · left
    simp [hr]
  · rw [Bool.not_eq_true] at hr
    by_cases hk : k = Key.X
    · subst hk
      simp [hr] at h
    · by_cases hc : f.camSetOk = true
      · simp [hr, hk, hc] at h
      · right
        rw [Bool.not_eq_true] at hc
        simp [hr, hk, hc]

theorem mouse_active_stores (f : Faults) (s : NavState) (px py : ℤ)
    (hv : s.viewAroundState = true) :
    (updateMouseMotion f s px py).d_az_init = px ∧
      (updateMouseMotion f s px py).d_el_init = py := by
  unfold updateMouseMotion mouseBody
  cases hg : f.camGetOk <;> cases hp : f.camPointOk <;> cases hs : f.statusOk <;>
    simp [updateViewVector, hv, hg, hp, hs]

/-- Claim C2 (amended): a runtime error during any key-press or
pointer-motion event is caught inside that handler invocation — the
handler still returns a state — but that state keeps every mutation
made before the fault point and only the remainder of the body is
skipped.  For key events, with any key and any fault site: the returned
state is either the key-branch result itself (the branch's widget or
label call raised, after the speed or toggle mutation) or the
key-branch result with only the last-pointer reset applied (the camera
push raised), and the host camera position is never pushed by a
faulting event.  For pointer-motion events: in active mode the rotation
and last-pointer store, which precede the faulting host call, are kept;
in frozen mode a failing camera read leaves the state unchanged. -/
theorem c2_error_caught_kept (f : Faults) (s : NavState) (k : Key) (px py : ℤ) :
    ((keyBody f s k px py).2 = true →
      (updateKeyPressMotion f s k px py = (keyStep f s k).1 ∨
        updateKeyPressMotion f s k px py =
          { (keyStep f s k).1 with
              d_az := px, d_el := py, d_az_init := px, d_el_init := py }) ∧
      (updateKeyPressMotion f s k px py).camPos = s.camPos) ∧
    (s.viewAroundState = true → (mouseBody f s px py).2 = true →
      (updateMouseMotion f s px py).azimuth =
          s.azimuth + ((s.d_az_init : ℝ) - (px : ℝ)) * (s.mouse_speed / MOUSE_SPEED_DIVIDER) ∧
        (updateMouseMotion f s px py).elevation =
          s.elevation + ((s.d_el_init : ℝ) - (py : ℝ)) * (s.mouse_speed / MOUSE_SPEED_DIVIDER) ∧
        (updateMouseMotion f s px py).d_az_init = px ∧
        (updateMouseMotion f s px py).d_el_init = py) ∧
    (s.viewAroundState = false → (mouseBody f s px py).2 = true →
      updateMouseMotion f s px py = s) := by
  refine ⟨fun h => ?_, fun hv h => ?_, fun hv h => ?_⟩
  · have hd := keyBody_error_state f s k px py h
    refine ⟨hd, ?_⟩
    rcases hd with he | he <;> rw [he]
    · exact keyStep_camPos f s k
    · simpa using keyStep_camPos f s k
  · obtain ⟨ha, he⟩ := updateMouseMotion_active f s px py hv
    obtain ⟨h1, h2⟩ := mouse_active_stores f s px py hv
    exact ⟨ha, he, h1, h2⟩
  · cases hg : f.camGetOk
    · unfold updateMouseMotion mouseBody
      simp [hv, hg]
    · unfold mouseBody at h
      simp [hv, hg] at h

/-- Witness for C2: an R press with a failing widget update on the key
side, and a failing camera read during pointer motion in active and in
frozen mode on the mouse side. -/
theorem c2_witness :
    ((updateKeyPressMotion uiFault s0 Key.R 0 0 = (keyStep uiFault s0 Key.R).1 ∨
      updateKeyPressMotion uiFault s0 Key.R 0 0 =
        { (keyStep uiFault s0 Key.R).1 with
            d_az := 0, d_el := 0, d_az_init := 0, d_el_init := 0 }) ∧
      (updateKeyPressMotion uiFault s0 Key.R 0 0).camPos = s0.camPos) ∧
      (updateMouseMotion camFault s0 10 0).azimuth =
        s0.azimuth +
          ((s0.d_az_init : ℝ) - (((10 : ℤ)) : ℝ)) * (s0.mouse_speed / MOUSE_SPEED_DIVIDER) ∧
      updateMouseMotion camFault s0frozen 10 0 = s0frozen := by
  obtain ⟨hkey, -, -⟩ := c2_error_caught_kept uiFault s0 Key.R 0 0
  obtain ⟨-, hact, -⟩ := c2_error_caught_kept camFault s0 Key.R 10 0
  obtain ⟨-, -, hfro⟩ := c2_error_caught_kept camFault s0frozen Key.R 10 0
  refine ⟨hkey (by simp [keyBody, keyStep, uiFault]), ?_, ?_⟩
  · exact (hact rfl (by simp [mouseBody, updateViewVector, camFault, s0])).1
  · exact hfro rfl (by simp [mouseBody, camFault, s0frozen, s0])

/-- Claim C4 counterexample: at elevation 0 the Q key leaves z unchanged
(the code scales by sin of elevation, which is 0), rather than lowering
it by the walk speed as the claim states. -/
theorem c4_cex :
    (updateKeyPressMotion noFaults s0 Key.Q 0 0).z ≠
      s0.z - s0.walktrough_speed_mm := by
  have h := (keyQ_fields noFaults s0 0 0).1
  rw [h]
  simp [s0]

/-- Claim C4 (amended): the Q key lowers z by walkSpeed times the sine
of the current elevation (not by the raw walkSpeed), the E key raises z
by the same elevation-dependent amount (so E is the inverse of Q), and
pressing Q then E restores the original z. -/
theorem c4_qe_scaled (f g : Faults) (s : NavState) (px py qx qy : ℤ) :
    (updateKeyPressMotion f s Key.Q px py).z =
        s.z - s.walktrough_speed_mm * Real.sin s.elevation ∧
      (updateKeyPressMotion f s Key.E px py).z =
        s.z + s.walktrough_speed_mm * Real.sin s.elevation ∧
      (updateKeyPressMotion g (updateKeyPressMotion f s Key.Q px py) Key.E qx qy).z =
        s.z := by
  obtain ⟨hz, hel, hw⟩ := keyQ_fields f s px py
  refine ⟨hz, keyE_z f s px py, ?_⟩
  rw [keyE_z, hz, hel, hw]
  ring

/-- Claim C5: starting from position (0,0,0) with azimuth 0, elevation 0
and walk speed 100, pressing W moves the position to (100, 0, 0), and
pressing D then moves it to (100, -100, 0). -/
theorem c5_w_then_d :
    ((updateKeyPressMotion noFaults s0 Key.W 0 0).x = 100 ∧
      (updateKeyPressMotion noFaults s0 Key.W 0 0).y = 0 ∧
      (updateKeyPressMotion noFaults s0 Key.W 0 0).z = 0) ∧
    ((updateKeyPressMotion noFaults (updateKeyPressMotion noFaults s0 Key.W 0 0) Key.D 0 0).x
        = 100 ∧
      (updateKeyPressMotion noFaults (updateKeyPressMotion noFaults s0 Key.W 0 0) Key.D 0 0).y
        = -100 ∧
      (updateKeyPressMotion noFaults (updateKeyPressMotion noFaults s0 Key.W 0 0) Key.D 0 0).z
        = 0) := by
  simp [updateKeyPressMotion, keyBody, keyStep, noFaults, s0]

/-- Claim C6: a pointer-motion event whose x-coordinate is 10 larger
than the stored last-pointer x (dx = 10, dy = 0) with mouse speed 50
changes azimuth by exactly -10 * (50 / 10000) = -0.05 radians and
leaves elevation unchanged: the delta is previous minus current, so a
rightward pointer move decreases azimuth. -/
theorem c6_mouse_delta (f : Faults) (s : NavState)
    (hactive : s.viewAroundState = true) (hspeed : s.mouse_speed = 50) :
    (updateMouseMotion f s (s.d_az_init + 10) s.d_el_init).azimuth = s.azimuth - 0.05 ∧
      (updateMouseMotion f s (s.d_az_init + 10) s.d_el_init).elevation = s.elevation := by
  obtain ⟨ha, he⟩ := updateMouseMotion_active f s (s.d_az_init + 10) s.d_el_init hactive
  constructor
  · rw [ha, hspeed]
    simp only [MOUSE_SPEED_DIVIDER]
    push_cast
    ring_nf
  · rw [he]
    simp

/-- Witness for C6 at the default state (mouse active, speed 50). -/
theorem c6_witness :
    (updateMouseMotion noFaults s0 (s0.d_az_init + 10) s0.d_el_init).azimuth =
        s0.azimuth - 0.05 ∧
      (updateMouseMotion noFaults s0 (s0.d_az_init + 10) s0.d_el_init).elevation =
        s0.elevation :=
  c6_mouse_delta noFaults s0 rfl rfl

/-- Claim C7: while mouse mode is frozen, a pointer-motion event leaves
azimuth and elevation unchanged and (when the host camera read succeeds)
overwrites the stored x, y, z with the camera's current live position. -/
theorem c7_frozen_sync (f : Faults) (s : NavState) (px py : ℤ)
    (h : s.viewAroundState = false) :
    (updateMouseMotion f s px py).azimuth = s.azimuth ∧
      (updateMouseMotion f s px py).elevation = s.elevation ∧
      (f.camGetOk = true →
        (updateMouseMotion f s px py).x = s.camPos.1 ∧
          (updateMouseMotion f s px py).y = s.camPos.2.1 ∧
          (updateMouseMotion f s px py).z = s.camPos.2.2) := by
  cases hg : f.camGetOk <;> simp [updateMouseMotion, mouseBody, h, hg]

/-- Witness for C7 at the default state with mouse mode frozen. -/
theorem c7_witness :
    (updateMouseMotion noFaults s0frozen 3 4).azimuth = s0frozen.azimuth ∧
      (updateMouseMotion noFaults s0frozen 3 4).elevation = s0frozen.elevation ∧
      (updateMouseMotion noFaults s0frozen 3 4).x = s0frozen.camPos.1 := by
  obtain ⟨h1, h2, h3⟩ := c7_frozen_sync noFaults s0frozen 3 4 rfl
  exact ⟨h1, h2, (h3 rfl).1⟩

/-- Claim C8: a single R press increases walkSpeed by the speed
increment, a single F press decreases it by the same amount, and two R
presses in a row increase it by exactly twice the increment, from any
state and under any fault oracle. -/
theorem c8_speed_keys (f g : Faults) (s : NavState) (px py qx qy : ℤ) :
    (updateKeyPressMotion f s Key.R px py).walktrough_speed_mm =
        s.walktrough_speed_mm + s.speed_increment ∧
      (updateKeyPressMotion f s Key.F px py).walktrough_speed_mm =
        s.walktrough_speed_mm - s.speed_increment ∧
      (updateKeyPressMotion g (updateKeyPressMotion f s Key.R px py) Key.R
          qx qy).walktrough_speed_mm =
        s.walktrough_speed_mm + 2 * s.speed_increment := by
  obtain ⟨h1, h2⟩ := keyR_speed f s px py
  obtain ⟨h3, _⟩ := keyR_speed g (updateKeyPressMotion f s Key.R px py) qx qy
  refine ⟨h1, keyF_speed f s px py, ?_⟩
  rw [h3, h1, h2]
  ring

/-- Claim C9: session-start initialization guards both quotients:
azimuth is atan(dy/dx) when dx is nonzero and 0 when dx is zero, and
elevation is atan(dz/dy) when dy is nonzero and 0 when dy is zero, so
no unguarded division by zero occurs. -/
theorem c9_init_guard (dx dy dz : ℝ) :
    (dx ≠ 0 → initAzimuth (dx, dy, dz) = Real.arctan (dy / dx)) ∧
      (dx = 0 → initAzimuth (dx, dy, dz) = 0) ∧
      (dy ≠ 0 → initElevation (dx, dy, dz) = Real.arctan (dz / dy)) ∧
      (dy = 0 → initElevation (dx, dy, dz) = 0) := by
  refine ⟨fun h => ?_, fun h => ?_, fun h => ?_, fun h => ?_⟩ <;>
    simp [initAzimuth, initElevation, h]

/-- Witness for C9 on the view direction (1, 2, 0). -/
theorem c9_witness :
    initAzimuth (1, 2, 0) = Real.arctan (2 / 1) ∧
      initElevation (1, 2, 0) = Real.arctan (0 / 2) :=
  ⟨(c9_init_guard 1 2 0).1 one_ne_zero, (c9_init_guard 1 2 0).2.2.1 two_ne_zero⟩

/-- Claim C10: no key-press event changes azimuth or elevation — every
branch of the key handler (movement, speed tuning, toggles, escape) and
its trailing pointer-reset and camera-push steps leave both orientation
fields exactly as they were, under any fault oracle. -/
theorem c10_keys_preserve_orientation (f : Faults) (s : NavState) (k : Key) (px py : ℤ) :
    (updateKeyPressMotion f s k px py).azimuth = s.azimuth ∧
      (updateKeyPressMotion f s k px py).elevation = s.elevation := by
  cases k <;> simp [updateKeyPressMotion, keyBody, keyStep] <;>
    split_ifs <;> simp

end WalkView
